import Mathlib

/-!
Verification of the `build-webrtc.py` build-orchestration script.

The script is a thin sequencer of external commands (git, fetch, gclient,
gn, ninja, lipo, xcodebuild, zip) plus a handful of filesystem operations.
We embed it shallowly:

* filesystem paths are lists of components (`Path`); `os.path.join` is list
  append.  Absolute paths are represented by the component list of the
  target-directory argument followed by the literal components the script
  appends.  Since every `os.chdir` target of the script is statically known,
  paths that Python resolves against the process working directory are
  resolved at program-construction time.
* every construct of the script's bodies (`sh`, `mkdirp`, `rmr`,
  `os.chdir`, `shutil.copy`, `shutil.copytree`, `shutil.move`, `print`,
  `sys.exit`, `if os.path.isdir(...)`) becomes a statement of a small deep
  embedding (`Stmt`), so that properties quantified over "every step of
  every action" are theorems about the interpreter `execStmt`.
* the outcomes of external commands are an oracle (`Env`): each command
  string is mapped to an exit code or to an interruption, and to the sets of
  directories/files a successful run of it creates.  `os.makedirs` /
  `shutil.rmtree` failures other than the deterministic
  `EEXIST`/`ENOENT` cases are likewise oracles (`mkErr`/`rmErr`).
* `subprocess.check_call` raising `CalledProcessError` becomes the
  `CmdResult.exited c` (`c ≠ 0`) case of `sh`; `KeyboardInterrupt` becomes
  `CmdResult.interrupted`, which the script's `except KeyboardInterrupt:
  pass` swallows.
* environment-variable composition (the `PATH` augmentation) is not
  modeled: commands are identified by their command string, and no claim
  concerns the contents of `PATH`.  The `cwd=` keyword of the two `zip`
  invocations is likewise not modeled beyond the command string.
* `argparse` is modeled as an already-parsed record `Args`.

Intermediate directories implicitly created by `os.makedirs` are not
tracked: `mkdirp p` records only `p` itself.  No claim depends on them.
-/

set_option linter.unusedVariables false
set_option maxRecDepth 100000

namespace WebRTCBuild

/-- A filesystem path, as its list of components. -/
abbrev Path := List String

/-- errno.EEXIST -/
def EEXIST : Nat := 17
/-- errno.ENOENT -/
def ENOENT : Nat := 2

/-- Result of one external command invocation: a normal exit with a code, or
a KeyboardInterrupt delivered while it was running. -/
inductive CmdResult where
  | exited (code : Nat)
  | interrupted
deriving DecidableEq, Repr

/-- Observable events of a run, in order. -/
inductive Event where
  | ran (cmd : String)
  | printed (msg : String)
  | ensuredDir (p : Path)
  | removedTree (p : Path)
  | changedDir (p : Path)
  | copiedFile (src tgt : Path)
  | copiedTree (src dst : Path)
  | movedPath (src dst : Path)
deriving DecidableEq, Repr

/-- How a run terminates: a `sys.exit` with a code, or an uncaught OSError. -/
inductive Term where
  | exit (code : Nat)
  | oserror (errno : Nat)
deriving DecidableEq, Repr

/-- Process state: the directories and files that exist, the working
directory, and the event trace so far. -/
structure PState where
  dirs : List Path
  files : List Path
  cwd : Path
  trace : List Event
deriving DecidableEq, Repr

/-- Oracle for everything outside the script: external command outcomes and
effects, and the non-deterministic OS errors of makedirs/rmtree. -/
structure Env where
  result : String → CmdResult
  createsDirs : String → List Path
  createsFiles : String → List Path
  mkErr : Path → Option Nat
  rmErr : Path → Option Nat

/-- Result of executing a statement: fall through to the next one, or the
whole process terminates. -/
inductive Res where
  | next (s : PState)
  | halted (t : Term) (s : PState)
deriving DecidableEq, Repr

/-- The state carried by a `Res`. -/
def stateOf : Res → PState
  | .next s => s
  | .halted _ s => s

/-- `leadsTo p q` holds when path `p` is an initial segment of path `q`
(component-wise), i.e. `q` is `p` itself or lies beneath it. -/
def leadsTo : Path → Path → Bool
  | [], _ => true
  | _ :: _, [] => false
  | a :: as, b :: bs => a == b && leadsTo as bs

/-- Component-wise path equality (Boolean). -/
def pathBeq : Path → Path → Bool
  | [], [] => true
  | a :: as, b :: bs => a == b && pathBeq as bs
  | _, _ => false

/-- Boolean membership of a path in a list of paths: the filesystem query
(`os.path.isdir` and friends) of the embedding. -/
def pmem (p : Path) : List Path → Bool
  | [] => false
  | q :: l => pathBeq p q || pmem p l

/-- Python `'%s'`-interpolation: replace successive `%s` occurrences by the
given arguments. -/
def substPercent : List Char → List String → List Char
  | [], _ => []
  | '%' :: 's' :: rest, a :: as => a.data ++ substPercent rest as
  | '%' :: 's' :: rest, [] => '%' :: 's' :: substPercent rest []
  | c :: rest, as => c :: substPercent rest as

/-- Python `template % args` for `%s` placeholders. -/
def pyFormat (template : String) (args : List String) : String :=
  ⟨substPercent template.data args⟩

/-- Python `str(debug).lower()`. -/
def pyBool (b : Bool) : String := if b then "true" else "false"

/-- Rendering of a component path back to a string (used only inside
printed messages and command strings). -/
def renderPath (p : Path) : String := String.intercalate "/" p

/- ## Constants of the script (lines 12-67 of build-webrtc.py) -/

def APPLE_FRAMEWORK_NAME : String := "WebRTC.framework"
def APPLE_DSYM_NAME : String := "WebRTC.dSYM"

def ANDROID_CPU_ABI_MAP : List (String × String) :=
  [("arm", "armeabi-v7a"), ("arm64", "arm64-v8a"), ("x86", "x86"), ("x64", "x86_64")]

def ANDROID_BUILD_CPUS : List String := ["arm", "arm64", "x86", "x64"]
def IOS_BUILD_ARCHS : List String := ["device:arm64", "simulator:arm64", "simulator:x64"]
def MACOS_BUILD_ARCHS : List String := ["arm64", "x64"]

/-- Linker flags for 16 KB page-size compatibility. -/
def ANDROID_PAGE_SIZE_LDFLAGS : List String :=
  ["extra_ldflags=[\"-Wl,-z,common-page-size=4096\",\"-Wl,-z,max-page-size=16384\"]"]

def GN_COMMON_ARGS : List String :=
  ["rtc_libvpx_build_vp9=true",
   "rtc_enable_protobuf=false",
   "rtc_include_tests=false",
   "is_debug=%s",
   "target_cpu=\"%s\""]

def build_gn_args (platform_args : List String) : String :=
  "--args=\x27" ++ String.intercalate " " (GN_COMMON_ARGS ++ platform_args) ++ "\x27"

def _GN_APPLE_COMMON : List String :=
  ["enable_dsyms=true",
   "enable_stripping=true",
   "rtc_enable_symbol_export=false",
   "rtc_enable_objc_symbol_export=true"]

def _GN_IOS_ARGS : List String :=
  ["ios_deployment_target=\"12.0\"",
   "ios_enable_code_signing=false",
   "target_os=\"ios\"",
   "target_environment=\"%s\""]

def GN_IOS_ARGS : String := build_gn_args (_GN_APPLE_COMMON ++ _GN_IOS_ARGS)

def _GN_MACOS_ARGS : List String := ["target_os=\"mac\""]

def GN_MACOS_ARGS : String := build_gn_args (_GN_APPLE_COMMON ++ _GN_MACOS_ARGS)

def _GN_ANDROID_ARGS : List String :=
  ["target_os=\"android\""] ++ ANDROID_PAGE_SIZE_LDFLAGS

def GN_ANDROID_ARGS : String := build_gn_args _GN_ANDROID_ARGS

/- ## The statement language and its interpreter -/

/-- Deep embedding of the constructs the script's bodies use.  `seq`/`skip`
give sequencing; `ifDirExists p t e` is `if os.path.isdir(p): t else: e`. -/
inductive Stmt where
  | skip
  | seq (a b : Stmt)
  | ifDirExists (p : Path) (thn els : Stmt)
  | runCmd (cmd : String)
  | ensureDir (p : Path)
  | removeTree (p : Path)
  | changeDir (p : Path)
  | copyFileS (src dst : Path)
  | copyTreeS (src dst : Path)
  | movePath (src dst : Path)
  | printMsg (msg : String)
  | exitWith (code : Nat)
deriving Repr

/-- Right-nested sequencing of a statement list. -/
def seqAll : List Stmt → Stmt
  | [] => .skip
  | s :: rest => .seq s (seqAll rest)

/-- Continue with `k` unless the process already terminated. -/
def thenRun (r : Res) (k : PState → Res) : Res :=
  match r with
  | .next s => k s
  | .halted t s => .halted t s

/-- Effects of a successfully exited external command, per the oracle. -/
def applyCreates (env : Env) (c : String) (s : PState) : PState :=
  { s with dirs := env.createsDirs c ++ s.dirs,
           files := env.createsFiles c ++ s.files }

/-- `sh(cmd)` (lines 69-77): print the command, run it; a non-zero exit
code is propagated via `sys.exit(e.returncode)`; a `KeyboardInterrupt` is
swallowed (`pass`), so execution falls through to the next statement. -/
def shStep (env : Env) (c : String) (s : PState) : Res :=
  let s1 : PState :=
    { s with trace := s.trace ++ [.printed (pyFormat "Running cmd: %s" [c]), .ran c] }
  match env.result c with
  | .exited code => if code = 0 then .next (applyCreates env c s1) else .halted (.exit code) s1
  | .interrupted => .next s1

/-- `os.makedirs` (underlying call of `mkdirp`): raises `EEXIST` when the
directory already exists, otherwise fails with an oracle errno or creates
the directory. -/
def makedirs (env : Env) (p : Path) (ds : List Path) : Except Nat (List Path) :=
  if pmem p ds then .error EEXIST
  else match env.mkErr p with
    | some e => .error e
    | none => .ok (p :: ds)

/-- `mkdirp` (lines 79-84): swallow `EEXIST`, re-raise anything else. -/
def mkdirpStep (env : Env) (p : Path) (s : PState) : Res :=
  match makedirs env p s.dirs with
  | .ok ds' => .next { s with dirs := ds', trace := s.trace ++ [.ensuredDir p] }
  | .error e =>
      if e ≠ EEXIST then .halted (.oserror e) s
      else .next { s with trace := s.trace ++ [.ensuredDir p] }

/-- `shutil.rmtree` (underlying call of `rmr`): raises `ENOENT` when the
path does not exist, otherwise fails with an oracle errno or removes the
path and everything beneath it. -/
def rmtree (env : Env) (p : Path) (s : PState) : Except Nat (List Path × List Path) :=
  if pmem p s.dirs then
    match env.rmErr p with
    | some e => .error e
    | none => .ok (s.dirs.filter (fun q => !leadsTo p q), s.files.filter (fun q => !leadsTo p q))
  else .error ENOENT

/-- `rmr` (lines 86-91): swallow `ENOENT`, re-raise anything else. -/
def rmrStep (env : Env) (p : Path) (s : PState) : Res :=
  match rmtree env p s with
  | .ok (ds', fs') =>
      .next { s with dirs := ds', files := fs', trace := s.trace ++ [.removedTree p] }
  | .error e =>
      if e ≠ ENOENT then .halted (.oserror e) s
      else .next { s with trace := s.trace ++ [.removedTree p] }

/-- Rebase q (which lies beneath src) onto dst. -/
def rebase (src dst q : Path) : Path := dst ++ q.drop src.length

/-- `shutil.copy(src, dst)`: when `dst` is a directory the copy lands at
`dst/basename(src)`; a missing source raises `ENOENT`. -/
def copyFileStep (src dst : Path) (s : PState) : Res :=
  let tgt := if pmem dst s.dirs then dst ++ [src.getLastD ""] else dst
  if pmem src s.files then
    .next { s with files := tgt :: s.files, trace := s.trace ++ [.copiedFile src tgt] }
  else .halted (.oserror ENOENT) s

/-- `shutil.copytree(src, dst)`: fails if `dst` exists or `src` does not;
otherwise replicates everything beneath `src` at `dst`. -/
def copyTreeStep (src dst : Path) (s : PState) : Res :=
  if pmem dst s.dirs then .halted (.oserror EEXIST) s
  else if pmem src s.dirs then
    .next { s with
            dirs := (s.dirs.filter (leadsTo src)).map (rebase src dst) ++ s.dirs,
            files := (s.files.filter (leadsTo src)).map (rebase src dst) ++ s.files,
            trace := s.trace ++ [.copiedTree src dst] }
  else .halted (.oserror ENOENT) s

/-- `shutil.move(src, dst)`: rename `src` (and everything beneath it) to
`dst`; a missing source raises `ENOENT`.  (The move-into-existing-directory
case is not modeled; the script only moves to fresh names.) -/
def movePathStep (src dst : Path) (s : PState) : Res :=
  if pmem src s.dirs || pmem src s.files then
    .next { s with
            dirs := s.dirs.map (fun q => if leadsTo src q then rebase src dst q else q),
            files := s.files.map (fun q => if leadsTo src q then rebase src dst q else q),
            trace := s.trace ++ [.movedPath src dst] }
  else .halted (.oserror ENOENT) s

/-- `os.chdir(p)`: raises `ENOENT` when the directory does not exist. -/
def chdirStep (p : Path) (s : PState) : Res :=
  if pmem p s.dirs then .next { s with cwd := p, trace := s.trace ++ [.changedDir p] }
  else .halted (.oserror ENOENT) s

/-- The interpreter. -/
def execStmt (env : Env) : Stmt → PState → Res
  | .skip, s => .next s
  | .seq a b, s => thenRun (execStmt env a s) (fun s' => execStmt env b s')
  | .ifDirExists p thn els, s =>
      if pmem p s.dirs then execStmt env thn s else execStmt env els s
  | .runCmd c, s => shStep env c s
  | .ensureDir p, s => mkdirpStep env p s
  | .removeTree p, s => rmrStep env p s
  | .changeDir p, s => chdirStep p s
  | .copyFileS src dst, s => copyFileStep src dst s
  | .copyTreeS src dst, s => copyTreeStep src dst s
  | .movePath src dst, s => movePathStep src dst s
  | .printMsg m, s => .next { s with trace := s.trace ++ [.printed m] }
  | .exitWith c, s => .halted (.exit c) s

/-- Canonical initial state. -/
def initState (ds fs : List Path) : PState := ⟨ds, fs, [], []⟩

/-- The external commands invoked during a trace, in order. -/
def ranOf (tr : List Event) : List String :=
  tr.filterMap fun e => match e with | .ran c => some c | _ => none

/- ## The script's actions as programs -/

inductive Platform where
  | ios
  | android
deriving DecidableEq, Repr

def platStr : Platform → String
  | .ios => "ios"
  | .android => "android"

def cloneCmd : String :=
  "git clone https://chromium.googlesource.com/chromium/tools/depot_tools.git"

/-- `setup(target_dir, platform)` (lines 93-117). -/
def setup (target_dir : Path) (p : Platform) : Stmt :=
  let depot_tools_dir := target_dir ++ ["depot_tools"]
  let webrtc_dir := target_dir ++ ["webrtc", platStr p]
  seqAll
    ([Stmt.ensureDir target_dir,
      Stmt.changeDir target_dir,
      Stmt.ifDirExists depot_tools_dir .skip
        (seqAll [Stmt.printMsg "Fetching Chromium depot_tools...", Stmt.runCmd cloneCmd]),
      Stmt.ifDirExists webrtc_dir .skip
        (seqAll [Stmt.ensureDir webrtc_dir,
                 Stmt.changeDir webrtc_dir,
                 Stmt.printMsg (pyFormat "Fetching WebRTC for %s..." [platStr p]),
                 Stmt.runCmd (pyFormat "fetch --nohooks webrtc_%s" [platStr p])]),
      Stmt.runCmd "gclient sync"] ++
     (if p = .android then
        [Stmt.changeDir (target_dir ++ ["webrtc", platStr p, "src"]),
         Stmt.runCmd "./build/install-build-deps.sh"]
      else []))

/-- `sync(target_dir, platform)` (lines 119-137).  The `PATH` augmentation
(lines 127-134) is environment-only and not modeled. -/
def sync (target_dir : Path) (p : Platform) : Stmt :=
  let webrtc_dir := target_dir ++ ["webrtc", platStr p, "src"]
  seqAll
    [Stmt.ifDirExists webrtc_dir .skip
       (seqAll [Stmt.printMsg "WebRTC source not found, did you forget to run --setup?",
                Stmt.exitWith 1]),
     Stmt.changeDir webrtc_dir,
     Stmt.runCmd "gclient sync -D"]

/- ### build: per-architecture naming and command construction -/

def buildTypeStr (debug : Bool) : String := if debug then "Debug" else "Release"

/-- `beginsWith needle hay`: `hay` starts with `needle`. -/
def beginsWith : List Char → List Char → Bool
  | [], _ => true
  | _ :: _, [] => false
  | a :: as, b :: bs => a == b && beginsWith as bs

/-- Python `s.startswith(pre)`. -/
def strStarts (s pre : String) : Bool := beginsWith pre.data s.data

/-- Character-level split (structural, so it evaluates in the kernel). -/
def splitChars (sep : Char) : List Char → List (List Char)
  | [] => [[]]
  | c :: cs =>
      match splitChars sep cs, c == sep with
      | r, true => [] :: r
      | [], false => [[c]]
      | h :: t, false => (c :: h) :: t

/-- Python `s.split(sep)` for a single-character separator. -/
def pySplit (s : String) (sep : Char) : List String :=
  (splitChars sep s.data).map (fun l => ⟨l⟩)

/-- First half of `item.split(':')` for an iOS arch descriptor. -/
def iosTenv (item : String) : String := (pySplit item ':').getD 0 ""

/-- Second half of `item.split(':')` for an iOS arch descriptor. -/
def iosArch (item : String) : String := (pySplit item ':').getD 1 ""

/-- `f'out/{build_type}-ios-{tenv}-{arch}'` -/
def iosOutDir (bt item : String) : String :=
  "out/" ++ bt ++ "-ios-" ++ iosTenv item ++ "-" ++ iosArch item

/-- `f'out/{build_type}-macos-{arch}'` -/
def macosOutDir (bt arch : String) : String := "out/" ++ bt ++ "-macos-" ++ arch

/-- `f'out/{build_type}-{cpu}'` -/
def androidOutDir (bt cpu : String) : String := "out/" ++ bt ++ "-" ++ cpu

/-- Component form of `iosOutDir`. -/
def iosOutComps (bt item : String) : Path :=
  ["out", bt ++ "-ios-" ++ iosTenv item ++ "-" ++ iosArch item]

/-- Component form of `macosOutDir`. -/
def macosOutComps (bt arch : String) : Path := ["out", bt ++ "-macos-" ++ arch]

/-- Component form of `androidOutDir`. -/
def androidOutComps (bt cpu : String) : Path := ["out", bt ++ "-" ++ cpu]

/-- `f'gn gen {gn_out_dir} {gn_args}'`, iOS case (lines 163-167). -/
def iosGnGenCmd (debug : Bool) (item : String) : String :=
  "gn gen " ++ iosOutDir (buildTypeStr debug) item ++ " " ++
    pyFormat GN_IOS_ARGS [pyBool debug, iosArch item, iosTenv item]

/-- `f'gn gen {gn_out_dir} {gn_args}'`, macOS case (lines 168-171). -/
def macosGnGenCmd (debug : Bool) (arch : String) : String :=
  "gn gen " ++ macosOutDir (buildTypeStr debug) arch ++ " " ++
    pyFormat GN_MACOS_ARGS [pyBool debug, arch]

/-- `f'gn gen {gn_out_dir} {gn_args}'`, Android case (lines 173-176). -/
def androidGnGenCmd (debug : Bool) (cpu : String) : String :=
  "gn gen " ++ androidOutDir (buildTypeStr debug) cpu ++ " " ++
    pyFormat GN_ANDROID_ARGS [pyBool debug, cpu]

def iosNinjaCmd (bt item : String) : String :=
  "ninja -C " ++ iosOutDir bt item ++ " framework_objc"

def macosNinjaCmd (bt arch : String) : String :=
  "ninja -C " ++ macosOutDir bt arch ++ " mac_framework_objc"

def androidNinjaCmd (bt cpu : String) : String :=
  "ninja -C " ++ androidOutDir bt cpu ++ " libwebrtc libjingle_peerconnection_so"

/-- Apple packaging steps (lines 195-277), run with working directory
`wd` (the source checkout).  Paths Python resolves against the working
directory are resolved here statically against `wd`. -/
def iosPackaging (bt : String) (wd build_dir : Path) : List Stmt :=
  let simulators := IOS_BUILD_ARCHS.filter (fun item => strStarts item "simulator")
  let sim0 := simulators.getD 0 ""
  let gn_out_dir := iosOutDir bt sim0
  let g0 := wd ++ iosOutComps bt sim0
  let out_lib_path := gn_out_dir ++ "/" ++ ("fat-" ++ APPLE_FRAMEWORK_NAME) ++ "/WebRTC"
  let slice_paths := simulators.map
    (fun item => iosOutDir bt item ++ "/" ++ APPLE_FRAMEWORK_NAME ++ "/WebRTC")
  let out_dsym_path :=
    gn_out_dir ++ "/" ++ ("fat-" ++ APPLE_DSYM_NAME) ++ "/Contents/Resources/DWARF/WebRTC"
  let dsym_slice_paths := simulators.map
    (fun item => iosOutDir bt item ++ "/" ++ APPLE_DSYM_NAME ++ "/Contents/Resources/DWARF/WebRTC")
  let mac0 := MACOS_BUILD_ARCHS.getD 0 ""
  let mgn_out_dir := macosOutDir bt mac0
  let mg0 := wd ++ macosOutComps bt mac0
  let mout_lib_path :=
    mgn_out_dir ++ "/" ++ ("fat-" ++ APPLE_FRAMEWORK_NAME) ++ "/Versions/Current/WebRTC"
  let mslice_paths := MACOS_BUILD_ARCHS.map
    (fun arch => macosOutDir bt arch ++ "/" ++ APPLE_FRAMEWORK_NAME ++ "/Versions/Current/WebRTC")
  let mout_dsym_path :=
    mgn_out_dir ++ "/" ++ ("fat-" ++ APPLE_DSYM_NAME) ++ "/Contents/Resources/DWARF/WebRTC"
  let mdsym_slice_paths := MACOS_BUILD_ARCHS.map
    (fun arch => macosOutDir bt arch ++ "/" ++ APPLE_DSYM_NAME ++ "/Contents/Resources/DWARF/WebRTC")
  let iosFinalArchs := IOS_BUILD_ARCHS.filter (fun item => !strStarts item "simulator") ++ [sim0]
  let xcframework_path := renderPath (build_dir ++ ["WebRTC.xcframework"])
  let xcodebuild_cmd :=
    (iosFinalArchs.foldl
      (fun acc item =>
        acc ++ pyFormat " -framework %s"
                 [renderPath (wd ++ iosOutComps bt item ++ [APPLE_FRAMEWORK_NAME])]
            ++ pyFormat " -debug-symbols %s"
                 [renderPath (wd ++ iosOutComps bt item ++ [APPLE_DSYM_NAME])])
      (pyFormat "xcodebuild -create-xcframework -output %s" [xcframework_path]))
    ++ pyFormat " -framework %s" [renderPath (mg0 ++ [APPLE_FRAMEWORK_NAME])]
    ++ pyFormat " -debug-symbols %s" [renderPath (mg0 ++ [APPLE_DSYM_NAME])]
  [Stmt.copyTreeS (g0 ++ [APPLE_FRAMEWORK_NAME]) (g0 ++ ["fat-" ++ APPLE_FRAMEWORK_NAME]),
   Stmt.runCmd (pyFormat "lipo %s -create -output %s"
     [String.intercalate " " slice_paths, out_lib_path]),
   Stmt.movePath (g0 ++ [APPLE_FRAMEWORK_NAME]) (g0 ++ ["bak-" ++ APPLE_FRAMEWORK_NAME]),
   Stmt.movePath (g0 ++ ["fat-" ++ APPLE_FRAMEWORK_NAME]) (g0 ++ [APPLE_FRAMEWORK_NAME]),
   Stmt.copyTreeS (g0 ++ [APPLE_DSYM_NAME]) (g0 ++ ["fat-" ++ APPLE_DSYM_NAME]),
   Stmt.runCmd (pyFormat "lipo %s -create -output %s"
     [String.intercalate " " dsym_slice_paths, out_dsym_path]),
   Stmt.movePath (g0 ++ [APPLE_DSYM_NAME]) (g0 ++ ["bak-" ++ APPLE_DSYM_NAME]),
   Stmt.movePath (g0 ++ ["fat-" ++ APPLE_DSYM_NAME]) (g0 ++ [APPLE_DSYM_NAME]),
   Stmt.copyTreeS (mg0 ++ [APPLE_FRAMEWORK_NAME]) (mg0 ++ ["fat-" ++ APPLE_FRAMEWORK_NAME]),
   Stmt.runCmd (pyFormat "lipo %s -create -output %s"
     [String.intercalate " " mslice_paths, mout_lib_path]),
   Stmt.movePath (mg0 ++ [APPLE_FRAMEWORK_NAME]) (mg0 ++ ["bak-" ++ APPLE_FRAMEWORK_NAME]),
   Stmt.movePath (mg0 ++ ["fat-" ++ APPLE_FRAMEWORK_NAME]) (mg0 ++ [APPLE_FRAMEWORK_NAME]),
   Stmt.copyTreeS (mg0 ++ [APPLE_DSYM_NAME]) (mg0 ++ ["fat-" ++ APPLE_DSYM_NAME]),
   Stmt.runCmd (pyFormat "lipo %s -create -output %s"
     [String.intercalate " " mdsym_slice_paths, mout_dsym_path]),
   Stmt.movePath (mg0 ++ [APPLE_DSYM_NAME]) (mg0 ++ ["bak-" ++ APPLE_DSYM_NAME]),
   Stmt.movePath (mg0 ++ ["fat-" ++ APPLE_DSYM_NAME]) (mg0 ++ [APPLE_DSYM_NAME]),
   Stmt.runCmd xcodebuild_cmd,
   Stmt.runCmd "zip -y -r WebRTC.xcframework.zip WebRTC.xcframework"]

/-- Android packaging steps (lines 278-286), run with working directory
`wd`. -/
def androidPackaging (bt : String) (wd build_dir : Path) : List Stmt :=
  let cpu0 := ANDROID_BUILD_CPUS.getD 0 ""
  [Stmt.copyFileS
     (wd ++ androidOutComps bt cpu0 ++ ["lib.java", "sdk", "android", "libwebrtc.jar"])
     build_dir] ++
  (ANDROID_BUILD_CPUS.map fun cpu =>
    let lib_dir := build_dir ++ [((ANDROID_CPU_ABI_MAP.lookup cpu).getD "")]
    seqAll
      [Stmt.ensureDir lib_dir,
       Stmt.copyFileS (wd ++ androidOutComps bt cpu ++ ["libjingle_peerconnection_so.so"])
         lib_dir]) ++
  [Stmt.runCmd "zip -r android-webrtc.zip *"]

/-- `build(target_dir, platform, debug)` (lines 139-286). -/
def build (target_dir : Path) (p : Platform) (debug : Bool) : Stmt :=
  let build_dir := target_dir ++ ["build", platStr p]
  let build_type := buildTypeStr debug
  let webrtc_dir := target_dir ++ ["webrtc", platStr p, "src"]
  seqAll
    ([Stmt.ifDirExists webrtc_dir .skip
        (seqAll [Stmt.printMsg "WebRTC source not found, did you forget to run --setup?",
                 Stmt.exitWith 1]),
      Stmt.changeDir webrtc_dir,
      Stmt.removeTree (webrtc_dir ++ ["out"])] ++
     (match p with
      | .ios =>
          (IOS_BUILD_ARCHS.map fun item => Stmt.runCmd (iosGnGenCmd debug item)) ++
          (MACOS_BUILD_ARCHS.map fun arch => Stmt.runCmd (macosGnGenCmd debug arch))
      | .android =>
          ANDROID_BUILD_CPUS.map fun cpu => Stmt.runCmd (androidGnGenCmd debug cpu)) ++
     (match p with
      | .ios =>
          (IOS_BUILD_ARCHS.map fun item => Stmt.runCmd (iosNinjaCmd build_type item)) ++
          (MACOS_BUILD_ARCHS.map fun arch => Stmt.runCmd (macosNinjaCmd build_type arch))
      | .android =>
          ANDROID_BUILD_CPUS.map fun cpu => Stmt.runCmd (androidNinjaCmd build_type cpu)) ++
     [Stmt.removeTree build_dir, Stmt.ensureDir build_dir] ++
     (match p with
      | .ios => iosPackaging build_type webrtc_dir build_dir
      | .android => androidPackaging build_type webrtc_dir build_dir))

/- ## The command-line frontend (lines 288-330) -/

/-- The parsed command-line flags (`argparse` is modeled as already done).
The target directory argument is kept as a component list, taken to be
absolute (`os.path.abspath` is the identity on it). -/
structure Args where
  dir : Path
  setup : Bool
  build : Bool
  sync : Bool
  ios : Bool
  android : Bool
  debug : Bool
deriving DecidableEq, Repr

/-- The flag/directory validation (lines 300-314).  Note that the action
mutual-exclusion check is `sum([args.setup, args.build]) > 1`: `--sync` is
not part of it. -/
def validation (a : Args) : List Stmt :=
  (if !(a.setup || a.build || a.sync) then
     [Stmt.printMsg "--setup or --build or --sync must be specified!", Stmt.exitWith 1]
   else []) ++
  (if (if a.setup then 1 else 0) + (if a.build then 1 else 0) > 1 then
     [Stmt.printMsg "--setup and --build cannot be specified together!", Stmt.exitWith 1]
   else []) ++
  (if !(a.ios || a.android) then
     [Stmt.printMsg "--ios or --android must be specified!", Stmt.exitWith 1]
   else []) ++
  (if a.ios && a.android then
     [Stmt.printMsg "--ios and --android cannot be specified at the same time!",
      Stmt.exitWith 1]
   else []) ++
  [Stmt.ifDirExists a.dir .skip
     (seqAll [Stmt.printMsg "The specified directory does not exist!", Stmt.exitWith 1])]

/-- The action dispatch (lines 316-330): each requested action runs and
then the process exits with code 0, so at most one action ever runs. -/
def dispatch (a : Args) : List Stmt :=
  let target_dir := a.dir ++ ["build_webrtc"]
  let p := if a.ios then Platform.ios else Platform.android
  (if a.setup then
     [setup target_dir p,
      Stmt.printMsg (pyFormat "WebRTC setup for %s completed in %s"
        [platStr p, renderPath target_dir]),
      Stmt.exitWith 0]
   else []) ++
  (if a.sync then
     [sync target_dir p,
      Stmt.printMsg (pyFormat "WebRTC sync for %s completed in %s"
        [platStr p, renderPath target_dir]),
      Stmt.exitWith 0]
   else []) ++
  (if a.build then
     [build target_dir p a.debug,
      Stmt.printMsg (pyFormat "WebRTC build for %s completed in %s"
        [platStr p, renderPath target_dir]),
      Stmt.exitWith 0]
   else [])

/-- The whole `__main__` body as a program. -/
def mainProg (a : Args) : Stmt := seqAll (validation a ++ dispatch a)

/- ## Path and trace lemmas -/

@[simp] theorem append_cancel_iff (l x y : Path) : (l ++ x = l ++ y) ↔ x = y := by
  induction l with
  | nil => simp
  | cons a t ih => simp [ih]

@[simp] theorem append_eq_self_iff (l x : Path) : (l ++ x = l) ↔ x = [] := by
  constructor
  · intro h
    have hl := congrArg List.length h
    simp at hl
    exact hl
  · rintro rfl; simp

@[simp] theorem self_eq_append_iff (l x : Path) : (l = l ++ x) ↔ x = [] := by
  rw [eq_comm]; exact append_eq_self_iff l x

@[simp] theorem leadsTo_append_both (l a b : Path) : leadsTo (l ++ a) (l ++ b) = leadsTo a b := by
  induction l with
  | nil => simp
  | cons c t ih => simp [leadsTo, ih]

@[simp] theorem leadsTo_append_self (l x : Path) : leadsTo l (l ++ x) = true := by
  induction l with
  | nil => simp [leadsTo]
  | cons c t ih => simp [leadsTo, ih]

@[simp] theorem leadsTo_append_cons_self (l : Path) (a : String) (x : Path) :
    leadsTo (l ++ a :: x) l = false := by
  induction l with
  | nil => simp [leadsTo]
  | cons c t ih => simp [leadsTo, ih]

theorem pathBeq_iff (a b : Path) : pathBeq a b = true ↔ a = b := by
  induction a generalizing b with
  | nil => cases b <;> simp [pathBeq]
  | cons x xs ih => cases b <;> simp [pathBeq, ih]

@[simp] theorem pathBeq_refl (l : Path) : pathBeq l l = true := (pathBeq_iff l l).mpr rfl

@[simp] theorem pathBeq_append_both (l a b : Path) : pathBeq (l ++ a) (l ++ b) = pathBeq a b := by
  induction l with
  | nil => simp
  | cons c t ih => simp [pathBeq, ih]

@[simp] theorem pathBeq_append_cons_left (l : Path) (a : String) (x : Path) :
    pathBeq (l ++ a :: x) l = false := by
  induction l with
  | nil => simp [pathBeq]
  | cons c t ih => simp [pathBeq, ih]

@[simp] theorem pathBeq_append_cons_right (l : Path) (a : String) (x : Path) :
    pathBeq l (l ++ a :: x) = false := by
  induction l with
  | nil => simp [pathBeq]
  | cons c t ih => simp [pathBeq, ih]

theorem pmem_iff (p : Path) (l : List Path) : pmem p l = true ↔ p ∈ l := by
  induction l with
  | nil => simp [pmem]
  | cons q t ih => simp [pmem, pathBeq_iff, ih]

theorem pmem_eq_false_iff (p : Path) (l : List Path) : pmem p l = false ↔ p ∉ l := by
  rw [← pmem_iff]
  cases pmem p l <;> simp

/-- `if p ∈ ds then ds else p :: ds`: the net effect of `mkdirp` on the
directory set. -/
def insertIfAbsent (p : Path) (ds : List Path) : List Path :=
  if pmem p ds then ds else p :: ds

/-- `mkdirp` with no oracle OS error: ensure the directory exists. -/
theorem mkdirpStep_of_mkErr_none {env : Env} {p : Path} (h : env.mkErr p = none) (s : PState) :
    mkdirpStep env p s =
      .next { s with dirs := insertIfAbsent p s.dirs,
                     trace := s.trace ++ [.ensuredDir p] } := by
  unfold mkdirpStep makedirs insertIfAbsent
  cases hp : pmem p s.dirs <;> simp [hp, h]

/-- `rmr` on an absent path is a successful no-op. -/
theorem rmrStep_of_not_mem {env : Env} {p : Path} {s : PState} (h : pmem p s.dirs = false) :
    rmrStep env p s = .next { s with trace := s.trace ++ [.removedTree p] } := by
  unfold rmrStep rmtree
  simp [h]

/-- `rmr` on an existing path with no oracle OS error removes the subtree. -/
theorem rmrStep_of_mem {env : Env} {p : Path} {s : PState} (h : env.rmErr p = none)
    (hp : pmem p s.dirs = true) :
    rmrStep env p s =
      .next { s with dirs := s.dirs.filter (fun q => !leadsTo p q),
                     files := s.files.filter (fun q => !leadsTo p q),
                     trace := s.trace ++ [.removedTree p] } := by
  unfold rmrStep rmtree
  simp [h, hp]

/- ## Failure propagation (machinery for claim C3) -/

/-- A command string whose oracle outcome is not a non-zero exit. -/
def goodCmd (env : Env) (c : String) : Prop :=
  ∀ k, env.result c = .exited k → k = 0

/-- Every command invoked in the trace succeeded or was interrupted. -/
def cleanTrace (env : Env) (tr : List Event) : Prop :=
  ∀ c, Event.ran c ∈ tr → goodCmd env c

theorem cleanTrace_nil (env : Env) : cleanTrace env [] := by
  intro c hc; simp at hc

theorem cleanTrace_append {env : Env} {t1 t2 : List Event} :
    cleanTrace env (t1 ++ t2) ↔ cleanTrace env t1 ∧ cleanTrace env t2 := by
  unfold cleanTrace
  constructor
  · intro h
    exact ⟨fun c hc => h c (List.mem_append_left _ hc),
           fun c hc => h c (List.mem_append_right _ hc)⟩
  · rintro ⟨h1, h2⟩ c hc
    rcases List.mem_append.mp hc with hc | hc
    · exact h1 c hc
    · exact h2 c hc

theorem cleanTrace_snoc_nonran {env : Env} {tr : List Event}
    (h : cleanTrace env tr) (e : Event) (he : ∀ c, e ≠ .ran c) :
    cleanTrace env (tr ++ [e]) := by
  rw [cleanTrace_append]
  refine ⟨h, ?_⟩
  intro c hc
  simp at hc
  exact absurd hc.symm (he c)

theorem cleanTrace_snoc_ran {env : Env} {tr : List Event}
    (h : cleanTrace env tr) {c : String} (hg : goodCmd env c) :
    cleanTrace env (tr ++ [.ran c]) := by
  rw [cleanTrace_append]
  refine ⟨h, ?_⟩
  intro c' hc'
  simp at hc'
  subst hc'
  exact hg

/-- The invariant of a run: either every command so far has succeeded, or
the run halted with the exit code of the (only, last) failing command. -/
def CleanRes (env : Env) (r : Res) : Prop :=
  match r with
  | .next s' => cleanTrace env s'.trace
  | .halted t s' =>
      cleanTrace env s'.trace ∨
      ∃ pre c k, s'.trace = pre ++ [Event.ran c] ∧ cleanTrace env pre ∧
        env.result c = .exited k ∧ k ≠ 0 ∧ t = .exit k

theorem exec_clean (env : Env) (prog : Stmt) :
    ∀ s : PState, cleanTrace env s.trace → CleanRes env (execStmt env prog s) := by
  induction prog with
  | skip =>
      intro s hs
      exact hs
  | seq a b iha ihb =>
      intro s hs
      have ha := iha s hs
      cases h : execStmt env a s with
      | next s1 =>
          rw [h] at ha
          simpa [execStmt, thenRun, h] using ihb s1 ha
      | halted t s1 =>
          rw [h] at ha
          simpa [execStmt, thenRun, h] using ha
  | ifDirExists p thn els ih1 ih2 =>
      intro s hs
      by_cases hp : pmem p s.dirs = true
      · simpa [execStmt, hp] using ih1 s hs
      · simpa [execStmt, hp] using ih2 s hs
  | runCmd c =>
      intro s hs
      have hsnoc : cleanTrace env (s.trace ++ [Event.printed (pyFormat "Running cmd: %s" [c])]) :=
        cleanTrace_snoc_nonran hs _ (fun c' h => Event.noConfusion h)
      have heq : s.trace ++ [Event.printed (pyFormat "Running cmd: %s" [c]), Event.ran c]
          = (s.trace ++ [Event.printed (pyFormat "Running cmd: %s" [c])]) ++ [Event.ran c] := by
        simp
      simp only [execStmt, shStep]
      cases hr : env.result c with
      | exited k =>
          by_cases hk : k = 0
          · subst hk
            simp only [if_pos rfl, CleanRes, applyCreates]
            rw [heq]
            exact cleanTrace_snoc_ran hsnoc
              (fun k' h => by rw [hr] at h; exact (CmdResult.exited.inj h).symm)
          · simp only [if_neg hk, CleanRes]
            exact Or.inr ⟨s.trace ++ [Event.printed (pyFormat "Running cmd: %s" [c])], c, k,
              by simp, hsnoc, hr, hk, rfl⟩
      | interrupted =>
          simp only [CleanRes]
          rw [heq]
          exact cleanTrace_snoc_ran hsnoc
            (fun k' h => by rw [hr] at h; exact CmdResult.noConfusion h)
  | ensureDir p =>
      intro s hs
      simp only [execStmt, mkdirpStep]
      split
      · exact cleanTrace_snoc_nonran hs _ (fun c' h => Event.noConfusion h)
      · split
        · exact Or.inl hs
        · exact cleanTrace_snoc_nonran hs _ (fun c' h => Event.noConfusion h)
  | removeTree p =>
      intro s hs
      simp only [execStmt, rmrStep]
      split
      · exact cleanTrace_snoc_nonran hs _ (fun c' h => Event.noConfusion h)
      · split
        · exact Or.inl hs
        · exact cleanTrace_snoc_nonran hs _ (fun c' h => Event.noConfusion h)
  | changeDir p =>
      intro s hs
      simp only [execStmt, chdirStep]
      split
      · exact cleanTrace_snoc_nonran hs _ (fun c' h => Event.noConfusion h)
      · exact Or.inl hs
  | copyFileS src dst =>
      intro s hs
      simp only [execStmt, copyFileStep]
      split
      · exact cleanTrace_snoc_nonran hs _ (fun c' h => Event.noConfusion h)
      · exact Or.inl hs
  | copyTreeS src dst =>
      intro s hs
      simp only [execStmt, copyTreeStep]
      split
      · exact Or.inl hs
      · split
        · exact cleanTrace_snoc_nonran hs _ (fun c' h => Event.noConfusion h)
        · exact Or.inl hs
  | movePath src dst =>
      intro s hs
      simp only [execStmt, movePathStep]
      split
      · exact cleanTrace_snoc_nonran hs _ (fun c' h => Event.noConfusion h)
      · exact Or.inl hs
  | printMsg m =>
      intro s hs
      exact cleanTrace_snoc_nonran hs _ (fun c' h => Event.noConfusion h)
  | exitWith c =>
      intro s hs
      exact Or.inl hs

/-- Claim C3: for every step of every action, if an invoked external
command exits with a non-zero code, the whole process exits with exactly
that command's exit code and executes no further steps.  Stated over every
program of the embedding (hence over every step of `setup`, `sync` and
`build` on both platforms): whenever the trace of a run contains a command
whose oracle outcome is a non-zero exit code `c`, that command is the final
event of the trace (nothing ran after it — no retry, no cleanup) and the
run halted with exit code exactly `c`. -/
theorem c3_failing_command_halts_run (prog : Stmt) (env : Env) (ds fs : List Path)
    (cmd : String) (c : Nat) (h1 : env.result cmd = .exited c) (h2 : c ≠ 0)
    (tr1 tr2 : List Event)
    (h3 : (stateOf (execStmt env prog (initState ds fs))).trace
        = tr1 ++ Event.ran cmd :: tr2) :
    tr2 = [] ∧
      execStmt env prog (initState ds fs)
        = .halted (.exit c) (stateOf (execStmt env prog (initState ds fs))) := by
  have hclean := exec_clean env prog (initState ds fs) (cleanTrace_nil env)
  cases hr : execStmt env prog (initState ds fs) with
  | next s' =>
      rw [hr] at hclean h3
      exfalso
      have hmem : Event.ran cmd ∈ s'.trace := by
        rw [show (stateOf (Res.next s')).trace = s'.trace from rfl] at h3
        rw [h3]
        exact List.mem_append_right _ (List.mem_cons_self _ _)
      exact h2 (hclean cmd hmem c h1)
  | halted t s' =>
      rw [hr] at hclean h3
      simp only [stateOf] at h3 ⊢
      rcases hclean with hclean | ⟨pre, c', k, htr, hpre, hres, hk, ht⟩
      · exfalso
        have hmem : Event.ran cmd ∈ s'.trace := by
          rw [h3]
          exact List.mem_append_right _ (List.mem_cons_self _ _)
        exact h2 (hclean cmd hmem c h1)
      · rcases List.eq_nil_or_concat tr2 with h0 | ⟨l2, z, hz⟩
        · subst h0
          have hcomb : pre ++ [Event.ran c'] = tr1 ++ [Event.ran cmd] := by
            rw [← htr, h3]
          obtain ⟨hpre2, hlast⟩ := List.append_inj' hcomb (by simp)
          have hcc : c' = cmd := by simpa using hlast
          subst hcc
          have hkc : k = c := by
            have := hres.symm.trans h1
            exact CmdResult.exited.inj this
          subst hkc
          subst ht
          exact ⟨rfl, rfl⟩
        · exfalso
          rw [List.concat_eq_append] at hz
          subst hz
          have hcomb : pre ++ [Event.ran c'] = (tr1 ++ Event.ran cmd :: l2) ++ [z] := by
            rw [← htr, h3]
            simp
          obtain ⟨hpre2, _⟩ := List.append_inj' hcomb (by simp)
          have hmem : Event.ran cmd ∈ pre := by
            rw [hpre2]
            exact List.mem_append_right _ (List.mem_cons_self _ _)
          exact h2 (hpre cmd hmem c h1)

/-- Oracle in which the first Android `gn gen` invocation exits with code 7
and everything else succeeds. -/
def c3env : Env :=
  { result := fun c => if c = androidGnGenCmd false "arm" then .exited 7 else .exited 0
    createsDirs := fun _ => []
    createsFiles := fun _ => []
    mkErr := fun _ => none
    rmErr := fun _ => none }

def c3args : Args := ⟨["r"], false, true, false, false, true, false⟩

def c3dirs : List Path := [["r"], ["r", "build_webrtc", "webrtc", "android", "src"]]

/-- Witness for C3: in a concrete Android build run whose first `gn gen`
exits with code 7, the process halts with exit code 7 at that command. -/
theorem c3_witness :
    execStmt c3env (mainProg c3args) (initState c3dirs [])
      = .halted (.exit 7) (stateOf (execStmt c3env (mainProg c3args) (initState c3dirs []))) :=
  (c3_failing_command_halts_run (mainProg c3args) c3env c3dirs []
    (androidGnGenCmd false "arm") 7 (by decide) (by decide)
    [Event.changedDir ["r", "build_webrtc", "webrtc", "android", "src"],
     Event.removedTree ["r", "build_webrtc", "webrtc", "android", "src", "out"],
     Event.printed (pyFormat "Running cmd: %s" [androidGnGenCmd false "arm"])] []
    (by decide)).2

/- ## Claim C8: interruption during an external command -/

/-- Claim C8 (amended): an interrupt delivered during an external command is
not propagated as an error — `sh` swallows it (`except KeyboardInterrupt:
pass`) and execution falls through to the subsequent steps of the run, with
the process state otherwise unchanged. -/
theorem c8_interrupt_swallowed_run_continues (env : Env) (c : String) (s : PState)
    (h : env.result c = .interrupted) :
    execStmt env (.runCmd c) s
      = .next { s with trace := s.trace ++ [.printed (pyFormat "Running cmd: %s" [c]), .ran c] } := by
  simp only [execStmt, shStep, h]

/-- Oracle in which the depot_tools clone is interrupted and everything
else succeeds. -/
def c8env : Env :=
  { result := fun c => if c = cloneCmd then .interrupted else .exited 0
    createsDirs := fun c =>
      if c = pyFormat "fetch --nohooks webrtc_%s" ["android"] then
        [["r", "build_webrtc", "webrtc", "android", "src"]]
      else []
    createsFiles := fun _ => []
    mkErr := fun _ => none
    rmErr := fun _ => none }

def c8args : Args := ⟨["r"], true, false, false, false, true, false⟩

/-- Counterexample for C8 as stated: in a concrete setup run whose
depot_tools clone is interrupted, further steps of the run do execute
(three more external commands run after the interrupted one), and the
process finishes with exit code 0. -/
theorem c8_counterexample :
    c8env.result cloneCmd = .interrupted ∧
    ranOf (stateOf (execStmt c8env (mainProg c8args) (initState [["r"]] []))).trace
      = [cloneCmd, pyFormat "fetch --nohooks webrtc_%s" ["android"],
         "gclient sync", "./build/install-build-deps.sh"] ∧
    execStmt c8env (mainProg c8args) (initState [["r"]] [])
      = .halted (.exit 0) (stateOf (execStmt c8env (mainProg c8args) (initState [["r"]] []))) :=
  ⟨by decide, by decide, by decide⟩

/-- Witness for C8's amended theorem at a concrete input. -/
theorem c8_witness :
    execStmt c8env (.runCmd cloneCmd) (initState [] [])
      = .next { initState [] [] with
                trace := (initState [] []).trace ++
                  [.printed (pyFormat "Running cmd: %s" [cloneCmd]), .ran cloneCmd] } :=
  c8_interrupt_swallowed_run_continues c8env cloneCmd (initState [] []) (by decide)

/- ## Claim C7: Android gn arguments -/

/-- `occursIn needle hay`: `needle` occurs contiguously in `hay`. -/
def occursIn (needle : List Char) : List Char → Bool
  | [] => needle.isEmpty
  | c :: cs => beginsWith needle (c :: cs) || occursIn needle cs

/-- `sub` occurs as a contiguous substring of `s`. -/
def strHas (s sub : String) : Bool := occursIn sub.data s.data

/-- Claim C7: for every Android architecture in the fixed list and both
modes, the generated `gn gen` command contains, besides the standard
arguments (test exclusion, debug flag, target CPU, target OS), the two
extra linker flags fixing common/max memory-page sizes. -/
theorem c7_android_gn_args_include_page_size_flags (debug : Bool) (cpu : String)
    (h : cpu ∈ ANDROID_BUILD_CPUS) :
    strHas (androidGnGenCmd debug cpu) "-Wl,-z,common-page-size=4096" = true ∧
    strHas (androidGnGenCmd debug cpu) "-Wl,-z,max-page-size=16384" = true ∧
    strHas (androidGnGenCmd debug cpu) "rtc_include_tests=false" = true ∧
    strHas (androidGnGenCmd debug cpu) ("is_debug=" ++ pyBool debug) = true ∧
    strHas (androidGnGenCmd debug cpu) ("target_cpu=\"" ++ cpu ++ "\"") = true ∧
    strHas (androidGnGenCmd debug cpu) "target_os=\"android\"" = true := by
  fin_cases h <;> cases debug <;> decide

/-- Witness for C7 at `debug = false`, `cpu = "arm"`. -/
theorem c7_witness :
    strHas (androidGnGenCmd false "arm") "-Wl,-z,common-page-size=4096" = true ∧
    strHas (androidGnGenCmd false "arm") "-Wl,-z,max-page-size=16384" = true ∧
    strHas (androidGnGenCmd false "arm") "rtc_include_tests=false" = true ∧
    strHas (androidGnGenCmd false "arm") ("is_debug=" ++ pyBool false) = true ∧
    strHas (androidGnGenCmd false "arm") ("target_cpu=\"" ++ "arm" ++ "\"") = true ∧
    strHas (androidGnGenCmd false "arm") "target_os=\"android\"" = true :=
  c7_android_gn_args_include_page_size_flags false "arm" (by decide)

/- ## Claim C9: out-directory naming -/

/-- The gn output-directory names one iOS run generates (iOS descriptors
followed by macOS architectures, as in lines 162-171). -/
def iosRunOutDirs (debug : Bool) : List String :=
  (IOS_BUILD_ARCHS.map fun item => iosOutDir (buildTypeStr debug) item) ++
  (MACOS_BUILD_ARCHS.map fun arch => macosOutDir (buildTypeStr debug) arch)

/-- The gn output-directory names one Android run generates. -/
def androidRunOutDirs (debug : Bool) : List String :=
  ANDROID_BUILD_CPUS.map fun cpu => androidOutDir (buildTypeStr debug) cpu

/-- Claim C9: within a single run every build-output directory name is
uniquely determined by (mode, platform-specific architecture key): the
name lists of an iOS run (device/simulator descriptors plus macOS
architectures) and of an Android run have no duplicates in either mode,
and even across the two modes the names never collide. -/
theorem c9_out_dir_names_distinct :
    (iosRunOutDirs true).Nodup ∧ (iosRunOutDirs false).Nodup ∧
    (androidRunOutDirs true).Nodup ∧ (androidRunOutDirs false).Nodup ∧
    (iosRunOutDirs true ++ iosRunOutDirs false).Nodup ∧
    (androidRunOutDirs true ++ androidRunOutDirs false).Nodup := by
  decide

/- ## Claims C1 and C2: flag validation and dispatch -/

/-- Oracle in which every external command succeeds and creates nothing. -/
def allOkEnv : Env :=
  { result := fun _ => .exited 0
    createsDirs := fun _ => []
    createsFiles := fun _ => []
    mkErr := fun _ => none
    rmErr := fun _ => none }

/-- `--sync --build` on an Android checkout that exists. -/
def sbArgs : Args := ⟨["r"], false, true, true, false, true, false⟩

def sbDirs : List Path := [["r"], ["r", "build_webrtc", "webrtc", "android", "src"]]

/-- Counterexample for C1 as stated: `--sync --build` is an invocation with
two of the three actions chosen, yet the process does not exit with code 1
before any external command — it passes validation, runs the dependency
sync command and exits with code 0. -/
theorem c1_counterexample :
    (sbArgs.sync = true ∧ sbArgs.build = true) ∧
    execStmt allOkEnv (mainProg sbArgs) (initState sbDirs [])
      = .halted (.exit 0)
          (stateOf (execStmt allOkEnv (mainProg sbArgs) (initState sbDirs []))) ∧
    ranOf (stateOf (execStmt allOkEnv (mainProg sbArgs) (initState sbDirs []))).trace
      = ["gclient sync -D"] :=
  ⟨⟨rfl, rfl⟩, by decide, by decide⟩

/-- Execution of a pending target-directory existence check that fails:
print the diagnostic and exit with code 1, whatever statements follow. -/
theorem exec_dir_check_fail (env : Env) (d : Path) (m : String) (rest : List Stmt)
    (s : PState) (h : pmem d s.dirs = false) :
    execStmt env
        (seqAll (Stmt.ifDirExists d .skip (seqAll [Stmt.printMsg m, Stmt.exitWith 1]) :: rest)) s
      = .halted (.exit 1) { s with trace := s.trace ++ [.printed m] } := by
  simp [seqAll, execStmt, thenRun, h]

/-- Claim C1 (amended): for every invocation whose flags are conflicting or
incomplete in a way the script checks — zero of `--setup`/`--build`/`--sync`
chosen, `--setup` and `--build` both chosen (the only two-action combination
the script rejects), zero of `--ios`/`--android` chosen, both platforms
chosen — or whose target directory does not exist, the process exits with
code 1 before any external command is invoked. -/
theorem c1_validation_exits_one (a : Args) (env : Env) (ds fs : List Path)
    (h : (a.setup || a.build || a.sync) = false ∨ (a.setup && a.build) = true ∨
         (a.ios || a.android) = false ∨ (a.ios && a.android) = true ∨ a.dir ∉ ds) :
    ∃ s', execStmt env (mainProg a) (initState ds fs) = .halted (.exit 1) s' ∧
      ranOf s'.trace = [] := by
  obtain ⟨d, st, bu, sy, io, an, de⟩ := a
  rcases h with h | h | h | h | h
  · simp only [Bool.or_eq_false_iff] at h
    obtain ⟨⟨h1, h2⟩, h3⟩ := h
    subst h1; subst h2; subst h3
    exact ⟨_, rfl, rfl⟩
  · simp only [Bool.and_eq_true] at h
    obtain ⟨h1, h2⟩ := h
    subst h1; subst h2
    exact ⟨_, rfl, rfl⟩
  · simp only [Bool.or_eq_false_iff] at h
    obtain ⟨h1, h2⟩ := h
    subst h1; subst h2
    cases st <;> cases bu <;> cases sy <;> exact ⟨_, rfl, rfl⟩
  · simp only [Bool.and_eq_true] at h
    obtain ⟨h1, h2⟩ := h
    subst h1; subst h2
    cases st <;> cases bu <;> cases sy <;> exact ⟨_, rfl, rfl⟩
  · have hb : pmem d ds = false := (pmem_eq_false_iff d ds).mpr h
    cases st <;> cases bu <;> cases sy <;> cases io <;> cases an <;>
      first
        | exact ⟨_, rfl, rfl⟩
        | exact ⟨_, exec_dir_check_fail env d _ _ _ hb, rfl⟩

/-- Witness for C1's amended theorem: an invocation with no action flag at
all exits with code 1 and runs nothing. -/
theorem c1_witness :
    ∃ s', execStmt allOkEnv (mainProg ⟨["r"], false, false, false, false, false, false⟩)
        (initState [] []) = .halted (.exit 1) s' ∧ ranOf s'.trace = [] :=
  c1_validation_exits_one ⟨["r"], false, false, false, false, false, false⟩
    allOkEnv [] [] (Or.inl rfl)

/-- Counterexample for C2 as stated: with `--sync --build` both supplied
(one platform, existing checkout), the build action does not run — the
run's only external command is the dependency sync, and no `gn gen` of the
build phase is ever invoked. -/
theorem c2_counterexample :
    execStmt allOkEnv (mainProg sbArgs) (initState sbDirs [])
      = .halted (.exit 0)
          (stateOf (execStmt allOkEnv (mainProg sbArgs) (initState sbDirs []))) ∧
    ranOf (stateOf (execStmt allOkEnv (mainProg sbArgs) (initState sbDirs []))).trace
      = ["gclient sync -D"] ∧
    Event.ran (androidGnGenCmd false "arm")
      ∉ (stateOf (execStmt allOkEnv (mainProg sbArgs) (initState sbDirs []))).trace :=
  ⟨by decide, by decide, by decide⟩

/-- The final state of a `--sync --build` invocation: only the sync action
has run. -/
def c2state (d : Path) (plat : String) : PState :=
  { dirs := [d, d ++ ["build_webrtc", "webrtc", plat, "src"]]
    files := []
    cwd := d ++ ["build_webrtc", "webrtc", plat, "src"]
    trace := [.changedDir (d ++ ["build_webrtc", "webrtc", plat, "src"]),
              .printed (pyFormat "Running cmd: %s" ["gclient sync -D"]),
              .ran "gclient sync -D",
              .printed (pyFormat "WebRTC sync for %s completed in %s"
                [plat, renderPath (d ++ ["build_webrtc"])])] }

/-- Claim C2 (amended): when `--sync` and `--build` are both supplied with
exactly one platform flag and an existing checkout, the invocation passes
validation, but only the sync action runs: the dispatch exits with code 0
right after `sync`, so the build action never runs in that invocation. -/
theorem c2_sync_build_runs_only_sync (d : Path) (io : Bool) :
    ∃ s', execStmt allOkEnv (mainProg ⟨d, false, true, true, io, !io, false⟩)
        (initState [d, d ++ ["build_webrtc", "webrtc", if io then "ios" else "android", "src"]] [])
      = .halted (.exit 0) s' ∧ ranOf s'.trace = ["gclient sync -D"] := by
  cases io
  · refine ⟨c2state d "android", ?_, rfl⟩
    simp [mainProg, validation, dispatch, sync, seqAll, execStmt, thenRun, shStep,
          chdirStep, applyCreates, allOkEnv, initState, platStr, c2state, pmem, pathBeq]
  · refine ⟨c2state d "ios", ?_, rfl⟩
    simp [mainProg, validation, dispatch, sync, seqAll, execStmt, thenRun, shStep,
          chdirStep, applyCreates, allOkEnv, initState, platStr, c2state, pmem, pathBeq]

/- ## Claim C4: build/sync without a prior setup -/

/-- The final state of a `build`/`sync` run that failed the source check:
the filesystem is exactly the initial one and only the guidance message was
printed. -/
def c4state (d : Path) : PState :=
  { dirs := [d], files := [], cwd := [],
    trace := [.printed "WebRTC source not found, did you forget to run --setup?"] }

/-- Claim C4: for every target directory and platform, invoking `build` or
`sync` while the expected source directory `webrtc/<platform>/src` is
absent exits with code 1 after printing the guidance message, and performs
no filesystem mutation beyond the existence check: the final directory and
file sets equal the initial ones and no external command ran. -/
theorem c4_missing_source_exits_one (d : Path) (p : Platform) :
    execStmt allOkEnv
        (mainProg ⟨d, false, false, true, decide (p = .ios), decide (p = .android), false⟩)
        (initState [d] []) = .halted (.exit 1) (c4state d) ∧
    execStmt allOkEnv
        (mainProg ⟨d, false, true, false, decide (p = .ios), decide (p = .android), false⟩)
        (initState [d] []) = .halted (.exit 1) (c4state d) := by
  cases p <;> constructor <;>
    simp [mainProg, validation, dispatch, sync, build, seqAll, execStmt, thenRun,
          allOkEnv, initState, platStr, c4state, pmem, pathBeq]

/- ## Claim C5: setup idempotence -/

@[simp] theorem fetch_android_eval :
    pyFormat "fetch --nohooks webrtc_%s" ["android"] = "fetch --nohooks webrtc_android" := rfl

@[simp] theorem fetch_ios_eval :
    pyFormat "fetch --nohooks webrtc_%s" ["ios"] = "fetch --nohooks webrtc_ios" := rfl

/-- Oracle for a normally succeeding setup: the clone creates
`depot_tools`, the platform fetch creates the source directory, everything
exits 0. -/
def c5env (d : Path) (p : Platform) : Env :=
  { result := fun _ => .exited 0
    createsDirs := fun c =>
      if c = cloneCmd then [d ++ ["build_webrtc", "depot_tools"]]
      else if c = pyFormat "fetch --nohooks webrtc_%s" [platStr p] then
        [d ++ ["build_webrtc", "webrtc", platStr p, "src"]]
      else []
    createsFiles := fun _ => []
    mkErr := fun _ => none
    rmErr := fun _ => none }

def setupArgs (d : Path) (p : Platform) : Args :=
  match p with
  | .ios => ⟨d, true, false, false, true, false, false⟩
  | .android => ⟨d, true, false, false, false, true, false⟩

/-- Directory set after a successful setup. -/
def c5dirs (d : Path) (plat : String) : List Path :=
  [d ++ ["build_webrtc", "webrtc", plat, "src"],
   d ++ ["build_webrtc", "webrtc", plat],
   d ++ ["build_webrtc", "depot_tools"],
   d ++ ["build_webrtc"],
   d]

/-- State after the first Android setup run. -/
def c5s1android (d : Path) : PState :=
  { dirs := c5dirs d "android", files := [],
    cwd := d ++ ["build_webrtc", "webrtc", "android", "src"],
    trace :=
      [.ensuredDir (d ++ ["build_webrtc"]),
       .changedDir (d ++ ["build_webrtc"]),
       .printed "Fetching Chromium depot_tools...",
       .printed (pyFormat "Running cmd: %s"
         ["git clone https://chromium.googlesource.com/chromium/tools/depot_tools.git"]),
       .ran "git clone https://chromium.googlesource.com/chromium/tools/depot_tools.git",
       .ensuredDir (d ++ ["build_webrtc", "webrtc", "android"]),
       .changedDir (d ++ ["build_webrtc", "webrtc", "android"]),
       .printed (pyFormat "Fetching WebRTC for %s..." ["android"]),
       .printed (pyFormat "Running cmd: %s" ["fetch --nohooks webrtc_android"]),
       .ran "fetch --nohooks webrtc_android",
       .printed (pyFormat "Running cmd: %s" ["gclient sync"]),
       .ran "gclient sync",
       .changedDir (d ++ ["build_webrtc", "webrtc", "android", "src"]),
       .printed (pyFormat "Running cmd: %s" ["./build/install-build-deps.sh"]),
       .ran "./build/install-build-deps.sh",
       .printed (pyFormat "WebRTC setup for %s completed in %s"
         ["android", renderPath (d ++ ["build_webrtc"])])] }

/-- State after the second Android setup run (trace of that run only). -/
def c5s2android (d : Path) : PState :=
  { dirs := c5dirs d "android", files := [],
    cwd := d ++ ["build_webrtc", "webrtc", "android", "src"],
    trace :=
      [.ensuredDir (d ++ ["build_webrtc"]),
       .changedDir (d ++ ["build_webrtc"]),
       .printed (pyFormat "Running cmd: %s" ["gclient sync"]),
       .ran "gclient sync",
       .changedDir (d ++ ["build_webrtc", "webrtc", "android", "src"]),
       .printed (pyFormat "Running cmd: %s" ["./build/install-build-deps.sh"]),
       .ran "./build/install-build-deps.sh",
       .printed (pyFormat "WebRTC setup for %s completed in %s"
         ["android", renderPath (d ++ ["build_webrtc"])])] }

/-- State after the first iOS setup run. -/
def c5s1ios (d : Path) : PState :=
  { dirs := c5dirs d "ios", files := [],
    cwd := d ++ ["build_webrtc", "webrtc", "ios"],
    trace :=
      [.ensuredDir (d ++ ["build_webrtc"]),
       .changedDir (d ++ ["build_webrtc"]),
       .printed "Fetching Chromium depot_tools...",
       .printed (pyFormat "Running cmd: %s"
         ["git clone https://chromium.googlesource.com/chromium/tools/depot_tools.git"]),
       .ran "git clone https://chromium.googlesource.com/chromium/tools/depot_tools.git",
       .ensuredDir (d ++ ["build_webrtc", "webrtc", "ios"]),
       .changedDir (d ++ ["build_webrtc", "webrtc", "ios"]),
       .printed (pyFormat "Fetching WebRTC for %s..." ["ios"]),
       .printed (pyFormat "Running cmd: %s" ["fetch --nohooks webrtc_ios"]),
       .ran "fetch --nohooks webrtc_ios",
       .printed (pyFormat "Running cmd: %s" ["gclient sync"]),
       .ran "gclient sync",
       .printed (pyFormat "WebRTC setup for %s completed in %s"
         ["ios", renderPath (d ++ ["build_webrtc"])])] }

/-- State after the second iOS setup run (trace of that run only). -/
def c5s2ios (d : Path) : PState :=
  { dirs := c5dirs d "ios", files := [],
    cwd := d ++ ["build_webrtc"],
    trace :=
      [.ensuredDir (d ++ ["build_webrtc"]),
       .changedDir (d ++ ["build_webrtc"]),
       .printed (pyFormat "Running cmd: %s" ["gclient sync"]),
       .ran "gclient sync",
       .printed (pyFormat "WebRTC setup for %s completed in %s"
         ["ios", renderPath (d ++ ["build_webrtc"])])] }

/-- Claim C5: for every target directory and platform, running setup a
second time after a successful first run (from a fresh target directory,
all commands succeeding) does not re-run the depot_tools clone and does not
re-run the initial platform fetch — the existence checks skip both — but it
always runs the dependency-sync command `gclient sync`. -/
theorem c5_setup_second_run_skips_clone_and_fetch (d : Path) (p : Platform) :
    ∃ s1 s2,
      execStmt (c5env d p) (mainProg (setupArgs d p)) (initState [d] [])
        = .halted (.exit 0) s1 ∧
      execStmt (c5env d p) (mainProg (setupArgs d p)) { s1 with trace := [] }
        = .halted (.exit 0) s2 ∧
      Event.ran cloneCmd ∉ s2.trace ∧
      Event.ran (pyFormat "fetch --nohooks webrtc_%s" [platStr p]) ∉ s2.trace ∧
      Event.ran "gclient sync" ∈ s2.trace := by
  cases p
  · refine ⟨c5s1ios d, c5s2ios d, ?_, ?_, ?_, ?_, ?_⟩ <;>
      simp [mainProg, validation, dispatch, setup, setupArgs, seqAll, execStmt, thenRun,
            shStep, chdirStep, mkdirpStep, makedirs, applyCreates, c5env, initState,
            platStr, cloneCmd, c5s1ios, c5s2ios, c5dirs, pmem, pathBeq]
  · refine ⟨c5s1android d, c5s2android d, ?_, ?_, ?_, ?_, ?_⟩ <;>
      simp [mainProg, validation, dispatch, setup, setupArgs, seqAll, execStmt, thenRun,
            shStep, chdirStep, mkdirpStep, makedirs, applyCreates, c5env, initState,
            platStr, cloneCmd, c5s1android, c5s2android, c5dirs, pmem, pathBeq]

/- ## Claim C6: Android Release build outputs and packaging -/

@[simp] theorem leadsTo_refl (l : Path) : leadsTo l l = true := by
  induction l with
  | nil => simp [leadsTo]
  | cons c t ih => simp [leadsTo, ih]

/-- The entries strictly beneath `root` among `paths`, in order. -/
def entriesUnder (root : Path) (paths : List Path) : List Path :=
  paths.filter (fun q => leadsTo root q && !(pathBeq q root))

def srcDirA (d : Path) : Path := d ++ ["build_webrtc", "webrtc", "android", "src"]

def buildDirA (d : Path) : Path := d ++ ["build_webrtc", "build", "android"]

def buildArgs (d : Path) : Args := ⟨d, false, true, false, false, true, false⟩

/-- Oracle for a normally succeeding Android build: each ninja invocation
creates that architecture's shared object (and, in the out directory of
every CPU, ninja also produces the Java archive only read from the first
one — here attached to the first CPU's command), everything exits 0. -/
def c6env (d : Path) : Env :=
  { result := fun _ => .exited 0
    createsDirs := fun _ => []
    createsFiles := fun c =>
      if c = "ninja -C out/Release-arm libwebrtc libjingle_peerconnection_so" then
        [srcDirA d ++ ["out", "Release-arm", "libjingle_peerconnection_so.so"],
         srcDirA d ++ ["out", "Release-arm", "lib.java", "sdk", "android", "libwebrtc.jar"]]
      else if c = "ninja -C out/Release-arm64 libwebrtc libjingle_peerconnection_so" then
        [srcDirA d ++ ["out", "Release-arm64", "libjingle_peerconnection_so.so"]]
      else if c = "ninja -C out/Release-x86 libwebrtc libjingle_peerconnection_so" then
        [srcDirA d ++ ["out", "Release-x86", "libjingle_peerconnection_so.so"]]
      else if c = "ninja -C out/Release-x64 libwebrtc libjingle_peerconnection_so" then
        [srcDirA d ++ ["out", "Release-x64", "libjingle_peerconnection_so.so"]]
      else []
    mkErr := fun _ => none
    rmErr := fun _ => none }

/-- A Release Android build run from an existing checkout. -/
def c6run (d : Path) : Res :=
  execStmt (c6env d) (mainProg (buildArgs d)) (initState [d, srcDirA d] [])

/-- The final state of a successful first-ever Android Release build run:
the four per-architecture out directories were generated and built, and the
staged `build/android` directory holds the four ABI subdirectories with
their shared objects plus the single Java archive. -/
def c6state (d : Path) : PState :=
  { dirs := [buildDirA d ++ ["x86_64"], buildDirA d ++ ["x86"], buildDirA d ++ ["arm64-v8a"],
             buildDirA d ++ ["armeabi-v7a"], buildDirA d, d, srcDirA d]
    files := [buildDirA d ++ ["x86_64", "libjingle_peerconnection_so.so"],
              buildDirA d ++ ["x86", "libjingle_peerconnection_so.so"],
              buildDirA d ++ ["arm64-v8a", "libjingle_peerconnection_so.so"],
              buildDirA d ++ ["armeabi-v7a", "libjingle_peerconnection_so.so"],
              buildDirA d ++ ["libwebrtc.jar"],
              srcDirA d ++ ["out", "Release-x64", "libjingle_peerconnection_so.so"],
              srcDirA d ++ ["out", "Release-x86", "libjingle_peerconnection_so.so"],
              srcDirA d ++ ["out", "Release-arm64", "libjingle_peerconnection_so.so"],
              srcDirA d ++ ["out", "Release-arm", "libjingle_peerconnection_so.so"],
              srcDirA d ++ ["out", "Release-arm", "lib.java", "sdk", "android", "libwebrtc.jar"]]
    cwd := srcDirA d
    trace := [.changedDir (srcDirA d),
              .removedTree (srcDirA d ++ ["out"]),
              .printed (pyFormat "Running cmd: %s" [androidGnGenCmd false "arm"]),
              .ran (androidGnGenCmd false "arm"),
              .printed (pyFormat "Running cmd: %s" [androidGnGenCmd false "arm64"]),
              .ran (androidGnGenCmd false "arm64"),
              .printed (pyFormat "Running cmd: %s" [androidGnGenCmd false "x86"]),
              .ran (androidGnGenCmd false "x86"),
              .printed (pyFormat "Running cmd: %s" [androidGnGenCmd false "x64"]),
              .ran (androidGnGenCmd false "x64"),
              .printed (pyFormat "Running cmd: %s"
                ["ninja -C out/Release-arm libwebrtc libjingle_peerconnection_so"]),
              .ran "ninja -C out/Release-arm libwebrtc libjingle_peerconnection_so",
              .printed (pyFormat "Running cmd: %s"
                ["ninja -C out/Release-arm64 libwebrtc libjingle_peerconnection_so"]),
              .ran "ninja -C out/Release-arm64 libwebrtc libjingle_peerconnection_so",
              .printed (pyFormat "Running cmd: %s"
                ["ninja -C out/Release-x86 libwebrtc libjingle_peerconnection_so"]),
              .ran "ninja -C out/Release-x86 libwebrtc libjingle_peerconnection_so",
              .printed (pyFormat "Running cmd: %s"
                ["ninja -C out/Release-x64 libwebrtc libjingle_peerconnection_so"]),
              .ran "ninja -C out/Release-x64 libwebrtc libjingle_peerconnection_so",
              .removedTree (buildDirA d),
              .ensuredDir (buildDirA d),
              .copiedFile
                (srcDirA d ++ ["out", "Release-arm", "lib.java", "sdk", "android", "libwebrtc.jar"])
                (buildDirA d ++ ["libwebrtc.jar"]),
              .ensuredDir (buildDirA d ++ ["armeabi-v7a"]),
              .copiedFile (srcDirA d ++ ["out", "Release-arm", "libjingle_peerconnection_so.so"])
                (buildDirA d ++ ["armeabi-v7a", "libjingle_peerconnection_so.so"]),
              .ensuredDir (buildDirA d ++ ["arm64-v8a"]),
              .copiedFile (srcDirA d ++ ["out", "Release-arm64", "libjingle_peerconnection_so.so"])
                (buildDirA d ++ ["arm64-v8a", "libjingle_peerconnection_so.so"]),
              .ensuredDir (buildDirA d ++ ["x86"]),
              .copiedFile (srcDirA d ++ ["out", "Release-x86", "libjingle_peerconnection_so.so"])
                (buildDirA d ++ ["x86", "libjingle_peerconnection_so.so"]),
              .ensuredDir (buildDirA d ++ ["x86_64"]),
              .copiedFile (srcDirA d ++ ["out", "Release-x64", "libjingle_peerconnection_so.so"])
                (buildDirA d ++ ["x86_64", "libjingle_peerconnection_so.so"]),
              .printed (pyFormat "Running cmd: %s" ["zip -r android-webrtc.zip *"]),
              .ran "zip -r android-webrtc.zip *",
              .printed (pyFormat "WebRTC build for %s completed in %s"
                ["android", renderPath (d ++ ["build_webrtc"])])] }

/-- Claim C6: for mode Release and platform Android (run from a concrete
target directory `webrtc` holding an existing checkout), the build
generates exactly the four build-output directories `out/Release-arm`,
`out/Release-arm64`, `out/Release-x86` and `out/Release-x64`, the run
reaches exactly the final state `c6state`, and the staged final output
directory that is zipped contains exactly one ABI-named subdirectory per
CPU — `armeabi-v7a`, `arm64-v8a`, `x86`, `x86_64`, each holding that
architecture's shared object — plus exactly one Java archive file, copied
from the first architecture's output. -/
theorem c6_android_release_build_outputs :
    ANDROID_BUILD_CPUS.map (androidOutDir "Release")
      = ["out/Release-arm", "out/Release-arm64", "out/Release-x86", "out/Release-x64"] ∧
    c6run ["webrtc"] = .halted (.exit 0) (c6state ["webrtc"]) ∧
    entriesUnder (buildDirA ["webrtc"]) (c6state ["webrtc"]).dirs
      = [buildDirA ["webrtc"] ++ ["x86_64"], buildDirA ["webrtc"] ++ ["x86"],
         buildDirA ["webrtc"] ++ ["arm64-v8a"], buildDirA ["webrtc"] ++ ["armeabi-v7a"]] ∧
    entriesUnder (buildDirA ["webrtc"]) (c6state ["webrtc"]).files
      = [buildDirA ["webrtc"] ++ ["x86_64", "libjingle_peerconnection_so.so"],
         buildDirA ["webrtc"] ++ ["x86", "libjingle_peerconnection_so.so"],
         buildDirA ["webrtc"] ++ ["arm64-v8a", "libjingle_peerconnection_so.so"],
         buildDirA ["webrtc"] ++ ["armeabi-v7a", "libjingle_peerconnection_so.so"],
         buildDirA ["webrtc"] ++ ["libwebrtc.jar"]] ∧
    Event.copiedFile
        (srcDirA ["webrtc"] ++ ["out", "Release-arm", "lib.java", "sdk", "android", "libwebrtc.jar"])
        (buildDirA ["webrtc"] ++ ["libwebrtc.jar"])
      ∈ (c6state ["webrtc"]).trace := by
  refine ⟨by decide, by decide, by decide, by decide, by decide⟩

/- ## Claim C10: mkdirp / rmr no-op and re-raise behaviour -/

/-- Oracle whose makedirs/rmtree fail with EACCES (13) whenever they
actually have to act. -/
def c10errEnv : Env :=
  { result := fun _ => .exited 0
    createsDirs := fun _ => []
    createsFiles := fun _ => []
    mkErr := fun _ => some 13
    rmErr := fun _ => some 13 }

/-- Claim C10: `mkdirp` succeeds as a no-op when the directory already
exists (the underlying `EEXIST` is swallowed), `rmr` succeeds as a no-op
when the path is absent (the underlying `ENOENT` is swallowed), while any
other OS error is re-raised by both; consequently a first-ever Android
build — where the prior `out` directory is absent, `rmr('out')` runs, and
the final artifacts directory is removed-then-created — completes without
any such failure. -/
theorem c10_mkdirp_rmr_noop_or_reraise :
    (∀ (env : Env) (p : Path) (s : PState), p ∈ s.dirs →
      execStmt env (.ensureDir p) s
        = .next { s with trace := s.trace ++ [.ensuredDir p] }) ∧
    (∀ (env : Env) (p : Path) (s : PState), p ∉ s.dirs →
      execStmt env (.removeTree p) s
        = .next { s with trace := s.trace ++ [.removedTree p] }) ∧
    (∀ (env : Env) (p : Path) (s : PState) (e : Nat), p ∉ s.dirs →
      env.mkErr p = some e → e ≠ EEXIST →
      execStmt env (.ensureDir p) s = .halted (.oserror e) s) ∧
    (∀ (env : Env) (p : Path) (s : PState) (e : Nat), p ∈ s.dirs →
      env.rmErr p = some e → e ≠ ENOENT →
      execStmt env (.removeTree p) s = .halted (.oserror e) s) ∧
    c6run ["q"] = .halted (.exit 0) (stateOf (c6run ["q"])) := by
  refine ⟨?_, ?_, ?_, ?_, by decide⟩
  · intro env p s h
    simp [execStmt, mkdirpStep, makedirs, (pmem_iff p s.dirs).mpr h]
  · intro env p s h
    exact rmrStep_of_not_mem ((pmem_eq_false_iff p s.dirs).mpr h)
  · intro env p s e h hm he
    simp [execStmt, mkdirpStep, makedirs, (pmem_eq_false_iff p s.dirs).mpr h, hm, he]
  · intro env p s e h hr he
    simp [execStmt, rmrStep, rmtree, (pmem_iff p s.dirs).mpr h, hr, he]

/-- Witness for C10 at concrete inputs: an existing directory is ensured
as a no-op, an absent path is removed as a no-op, and an EACCES from the
underlying OS call is re-raised by both helpers. -/
theorem c10_witness :
    execStmt allOkEnv (.ensureDir ["a"]) (initState [["a"]] [])
      = .next { initState [["a"]] [] with
                trace := (initState [["a"]] []).trace ++ [.ensuredDir ["a"]] } ∧
    execStmt allOkEnv (.removeTree ["b"]) (initState [["a"]] [])
      = .next { initState [["a"]] [] with
                trace := (initState [["a"]] []).trace ++ [.removedTree ["b"]] } ∧
    execStmt c10errEnv (.ensureDir ["c"]) (initState [] [])
      = .halted (.oserror 13) (initState [] []) ∧
    execStmt c10errEnv (.removeTree ["a"]) (initState [["a"]] [])
      = .halted (.oserror 13) (initState [["a"]] []) :=
  ⟨c10_mkdirp_rmr_noop_or_reraise.1 allOkEnv ["a"] (initState [["a"]] []) (by decide),
   c10_mkdirp_rmr_noop_or_reraise.2.1 allOkEnv ["b"] (initState [["a"]] []) (by decide),
   c10_mkdirp_rmr_noop_or_reraise.2.2.1 c10errEnv ["c"] (initState [] []) 13
     (by decide) rfl (by decide),
   c10_mkdirp_rmr_noop_or_reraise.2.2.2.1 c10errEnv ["a"] (initState [["a"]] []) 13
     (by decide) rfl (by decide)⟩

end WebRTCBuild
